import Mathlib

/-!
Verification of the chunked-upload protocol and video-lifecycle handlers of
`server.py` (YT-Uploader-v2).

The server keeps two in-memory Python dicts, `pending_videos` (video_id →
record dict) and `partial_uploads` (filename → {offset, total_size}), plus the
files it assembles under `UPLOAD_DIR`.  Python dicts are insertion-ordered
maps with unique keys; we embed them as association lists together with
operations that mirror dict assignment (update in place, else append) and
`del` (drop the entry).  Byte strings are embedded as `List Nat`.

Nondeterministic inputs of the handlers — the generated video id
(`generate_video_id`, an md5 of filename+timestamp), the current timestamp,
and the configured `TELEGRAM_USER_ID` — are passed in as parameters.
-/

set_option maxRecDepth 8000

namespace YTUploader

/-- Lookup in an insertion-ordered association list, mirroring Python dict
access: the first entry with the key wins (dict keys are unique in practice). -/
def dictLookup {α : Type} (d : List (String × α)) (k : String) : Option α :=
  match d with
  | [] => none
  | (k1, v) :: rest => if k1 = k then some v else dictLookup rest k

/-- Python dict assignment `d[k] = v`: update the existing entry in place,
preserving its position, or append a new entry at the end. -/
def dictInsert {α : Type} (d : List (String × α)) (k : String) (v : α) :
    List (String × α) :=
  match d with
  | [] => [(k, v)]
  | (k1, v1) :: rest =>
    if k1 = k then (k, v) :: rest else (k1, v1) :: dictInsert rest k v

/-- Python dict deletion `del d[k]`: drop the first entry with the key. -/
def dictErase {α : Type} (d : List (String × α)) (k : String) :
    List (String × α) :=
  match d with
  | [] => []
  | (k1, v1) :: rest => if k1 = k then rest else (k1, v1) :: dictErase rest k

/-- Contents of `UPLOAD_DIR`: path (modelled by the bare filename, since every
path in the source is `UPLOAD_DIR / filename`) → byte contents. -/
abbrev FileSystem := List (String × List Nat)

def fsLookup (fs : FileSystem) (p : String) : Option (List Nat) :=
  dictLookup fs p

/-- Model of `open(path, "wb")` + `write`: truncate/create, then write. -/
def writeWb (fs : FileSystem) (p : String) (data : List Nat) : FileSystem :=
  dictInsert fs p data

/-- Model of `open(path, "ab")` + `write`: append, creating the file if absent. -/
def writeAb (fs : FileSystem) (p : String) (data : List Nat) : FileSystem :=
  dictInsert fs p ((fsLookup fs p).getD [] ++ data)

/-- Model of `Path(p).unlink(missing_ok=True)`. -/
def unlink (fs : FileSystem) (p : String) : FileSystem :=
  dictErase fs p

def unlinkAll (fs : FileSystem) (paths : List String) : FileSystem :=
  match paths with
  | [] => fs
  | p :: rest => unlinkAll (unlink fs p) rest

/-- The four `STATE_*` string constants of `server.py`.  The spec calls
`uploading` «PUBLISHING». -/
inductive VideoState where
  | awaitingTitle
  | awaitingPrivacy
  | readyToUpload
  | uploading
deriving DecidableEq

/-- One entry of `pending_videos`.  The source stores a dict; keys that the
creating code never sets (`title`, `privacy`) are `Option` fields read back
with `.get`, matching `video.get("title", …)` / `video.get("privacy", …)`.
The source stores `size_mb = round(total_size / 2**20, 2)`; we keep the raw
byte count, since no handler reads the rounded figure. -/
structure VideoRecord where
  path : String
  filename : String
  totalSizeBytes : Nat
  uploadedAt : String
  creationTime : String
  duration : String
  state : VideoState
  chatId : Option Int
  messageId : Option Int
  title : Option String
  privacy : Option String
deriving DecidableEq

/-- One entry of the `partial_uploads` dict (the chunk session):
`{"offset": …, "total_size": …}`. -/
structure UploadSession where
  offset : Nat
  totalSize : Nat
deriving DecidableEq

/-- The server's mutable state: `pending_videos`, `partial_uploads` (named
`sessions` here because of a lexical restriction on the original name), and
the assembled files on disk. -/
structure ServerState where
  pendingVideos : List (String × VideoRecord)
  sessions : List (String × UploadSession)
  files : FileSystem
deriving DecidableEq

/-- HTTP-level results that the routes return. -/
inductive HttpResult where
  | okTrue
  | notFound (msg : String)
  | statusDeleted
  | fileServed (p : String)
deriving DecidableEq

/-- Responses of the `/upload_chunk` route.  `progress o` models
`200 {"status": "partial", "offset": o}` (the constructor is renamed for a
lexical restriction); `mismatch e` models `409 {"expected_offset": e}`;
`complete vid` models `200 {"status": "complete", "video_id": vid}`;
`missingFilename` models `400 {"error": "Missing filename"}`. -/
inductive ChunkResponse where
  | missingFilename
  | mismatch (expectedOffset : Nat)
  | progress (offset : Nat)
  | complete (videoId : String)
deriving DecidableEq

/-- The duplicate-filename scan in `upload_chunk`:
`for vid, vdata in pending_videos.items(): if vdata.get("filename") == filename:
video_id = vid; break`. -/
def findByFilename (d : List (String × VideoRecord)) (fn : String) :
    Option String :=
  match d with
  | [] => none
  | (vid, v) :: rest => if v.filename = fn then some vid else findByFilename rest fn

/-- The `/upload_status` route: return the session's offset when the filename
is non-empty and has a session, else 0. -/
def upload_status (s : ServerState) (filename : String) : Nat :=
  if filename ≠ "" then
    match dictLookup s.sessions filename with
    | some session => session.offset
    | none => 0
  else 0

/-- The write-and-finalize phase of `upload_chunk`, reached once the offset
check has passed (or no session existed): open the file in mode
`"ab" if offset > 0 else "wb"`, write the chunk, record the new session
offset, and when `new_offset >= total_size` create/replace the pending-video
record (reusing the id of an existing record with the same filename) and
delete the session. -/
def uploadChunkWrite (s : ServerState) (freshId now : String)
    (userChatId : Option Int) (filename : String) (totalSize offset : Nat)
    (chunk : List Nat) (duration creationTime : String)
    (messageId : Option Int) : ChunkResponse × ServerState :=
  let files1 := if 0 < offset then writeAb s.files filename chunk
                else writeWb s.files filename chunk
  let newOffset := offset + chunk.length
  let sessions1 := dictInsert s.sessions filename ⟨newOffset, totalSize⟩
  if totalSize ≤ newOffset then
    let videoId := (findByFilename s.pendingVideos filename).getD freshId
    let record : VideoRecord :=
      { path := filename
        filename := filename
        totalSizeBytes := totalSize
        uploadedAt := now
        creationTime := creationTime
        duration := duration
        state := VideoState.awaitingTitle
        chatId := userChatId
        messageId := messageId
        title := none
        privacy := none }
    (ChunkResponse.complete videoId,
     { pendingVideos := dictInsert s.pendingVideos videoId record
       sessions := dictErase sessions1 filename
       files := files1 })
  else
    (ChunkResponse.progress newOffset,
     { s with sessions := sessions1, files := files1 })

/-- The `/upload_chunk` route.  `freshId` stands for `generate_video_id`'s
output, `now` for `datetime.now().isoformat()`, `userChatId` for the
configured `TELEGRAM_USER_ID`.  Only when a session exists for the filename is
the offset checked against the session's committed offset; with no session
any offset falls through to the write phase. -/
def upload_chunk (s : ServerState) (freshId now : String)
    (userChatId : Option Int) (filename : String) (totalSize offset : Nat)
    (chunk : List Nat) (duration creationTime : String)
    (messageId : Option Int) : ChunkResponse × ServerState :=
  if filename = "" then (ChunkResponse.missingFilename, s)
  else
    match dictLookup s.sessions filename with
    | some session =>
      if offset ≠ session.offset then
        (ChunkResponse.mismatch session.offset, s)
      else
        uploadChunkWrite s freshId now userChatId filename totalSize offset
          chunk duration creationTime messageId
    | none =>
      uploadChunkWrite s freshId now userChatId filename totalSize offset
        chunk duration creationTime messageId

/-- Effect of the `cleanup:yes` webhook branch and of the `/cleanup` route:
unlink every pending video's file, then `pending_videos.clear()`. -/
def cleanupAllState (s : ServerState) : ServerState :=
  { pendingVideos := []
    sessions := s.sessions
    files := unlinkAll s.files (s.pendingVideos.map (fun e => e.2.path)) }

/-- The `/cleanup` route: report how many records were removed. -/
def cleanup_all (s : ServerState) : Nat × ServerState :=
  (s.pendingVideos.length, cleanupAllState s)

/-- Outcome of one webhook callback delivery: the new server state, the video
id for which a background `upload_to_youtube` thread was started (if any), and
the HTTP response, which the route makes `{"ok": True}` unconditionally. -/
structure CallbackOutcome where
  state : ServerState
  startedUploadFor : Option String
  response : HttpResult
deriving DecidableEq

/-- The callback-query part of `telegram_webhook`, after the callback data has
been split into `action:value:video_id`.  The branch chain is exactly the
source's `if`/`elif` chain; every guard on a record checks only membership of
`video_id` in `pending_videos`, never the record's state. -/
def handle_callback (s : ServerState) (chatId messageId : Int)
    (action value videoId : String) : CallbackOutcome :=
  match dictLookup s.pendingVideos videoId with
  | some v =>
    if action = "privacy" then
      let v1 := { v with privacy := some value,
                         state := VideoState.readyToUpload }
      { state := { s with pendingVideos := dictInsert s.pendingVideos videoId v1 }
        startedUploadFor := none
        response := HttpResult.okTrue }
    else if action = "action" ∧ value = "yes" then
      let v1 := { v with chatId := some chatId, messageId := some messageId }
      { state := { s with pendingVideos := dictInsert s.pendingVideos videoId v1 }
        startedUploadFor := some videoId
        response := HttpResult.okTrue }
    else if action = "action" ∧ value = "no" then
      { state := s, startedUploadFor := none, response := HttpResult.okTrue }
    else if action = "confirm" ∧ value = "yes" then
      { state := { s with pendingVideos := dictErase s.pendingVideos videoId,
                          files := unlink s.files v.path }
        startedUploadFor := none
        response := HttpResult.okTrue }
    else if action = "confirm" ∧ value = "no" then
      { state := s, startedUploadFor := none, response := HttpResult.okTrue }
    else if action = "cleanup" ∧ value = "yes" then
      { state := cleanupAllState s, startedUploadFor := none
        response := HttpResult.okTrue }
    else
      { state := s, startedUploadFor := none, response := HttpResult.okTrue }
  | none =>
    if action = "cleanup" ∧ value = "yes" then
      { state := cleanupAllState s, startedUploadFor := none
        response := HttpResult.okTrue }
    else
      { state := s, startedUploadFor := none, response := HttpResult.okTrue }

/-- The entry guard and first mutation of `upload_to_youtube` (the
PublishWorker body): `video = pending_videos.get(video_id); if not video:
return`, then `video["state"] = STATE_UPLOADING`.  Returns `none` when the
worker bails out, `some` of the state after marking the record as uploading
when it proceeds with the publish.  No state check guards the transition. -/
def upload_to_youtube_begin (s : ServerState) (videoId : String) :
    Option ServerState :=
  match dictLookup s.pendingVideos videoId with
  | none => none
  | some v =>
    let v1 := { v with state := VideoState.uploading }
    some { s with pendingVideos := dictInsert s.pendingVideos videoId v1 }

/-- Python `str.isspace` on the ASCII whitespace characters that
`str.strip()` removes (non-ASCII Unicode whitespace is not modelled; no
claim depends on it). -/
def pyIsSpace (c : Char) : Bool :=
  c = ' ' ∨ c = '\t' ∨ c = '\n' ∨ c = '\r' ∨ c = '\x0b' ∨ c = '\x0c'

/-- Python `text.strip()`: drop leading and trailing whitespace. -/
def pyStrip (t : String) : String :=
  String.mk (((t.data.dropWhile pyIsSpace).reverse.dropWhile pyIsSpace).reverse)

/-- Python string slicing `t[:n]`: the first `n` characters. -/
def pySlice (t : String) (n : Nat) : String :=
  String.mk (t.data.take n)

/-- Index of the last occurrence of a character, Python `str.rfind`. -/
def lastIndexOf (cs : List Char) (c : Char) : Option Nat :=
  match cs with
  | [] => none
  | x :: rest =>
    match lastIndexOf rest c with
    | some i => some (i + 1)
    | none => if x = c then some 0 else none

/-- `pathlib.PurePath.stem` on a bare filename: the name without its last
suffix, where a suffix needs a dot that is neither the first nor the last
character. -/
def pathStem (name : String) : String :=
  match lastIndexOf name.data '.' with
  | some i =>
    if 0 < i ∧ i + 1 < name.data.length then String.mk (name.data.take i)
    else name
  | none => name

/-- The title-reply loop of `telegram_webhook`: find the first pending video
whose `message_id` matches the replied-to message and whose state is
`awaiting_title`, set its title to `text.strip()[:100]`, move it to
`awaiting_privacy`, and stop (`break`). -/
def setTitleFirst (d : List (String × VideoRecord)) (replyMsgId : Int)
    (newTitle : String) : List (String × VideoRecord) :=
  match d with
  | [] => []
  | (vid, v) :: rest =>
    if v.messageId = some replyMsgId ∧ v.state = VideoState.awaitingTitle then
      (vid, { v with title := some newTitle,
                     state := VideoState.awaitingPrivacy }) :: rest
    else
      (vid, v) :: setTitleFirst rest replyMsgId newTitle

/-- The reply-message part of `telegram_webhook` (title setting). -/
def handle_title_reply (s : ServerState) (text : String) (replyMsgId : Int) :
    ServerState :=
  { s with pendingVideos :=
      setTitleFirst s.pendingVideos replyMsgId (pySlice (pyStrip text) 100) }

/-- Specification helper: the record the title-reply loop will hit, i.e. the
first entry whose `message_id` matches and whose state is `awaiting_title`. -/
def findTitleTarget (d : List (String × VideoRecord)) (replyMsgId : Int) :
    Option (String × VideoRecord) :=
  match d with
  | [] => none
  | (vid, v) :: rest =>
    if v.messageId = some replyMsgId ∧ v.state = VideoState.awaitingTitle then
      some (vid, v)
    else findTitleTarget rest replyMsgId

/-- The title used at publish time, `upload_to_youtube` line
`title = video.get("title", video_path.stem)[:100]`.  `videoPath` is the
effective path at that point (the `rotated_…` file when the video was
portrait and rotation succeeded, else the record's own path). -/
def publish_title (v : VideoRecord) (videoPath : String) : String :=
  pySlice ((v.title).getD (pathStem videoPath)) 100

/-- The `/preview/<video_id>` route. -/
def preview_video (s : ServerState) (videoId : String) : HttpResult :=
  match dictLookup s.pendingVideos videoId with
  | none => HttpResult.notFound "Video not found"
  | some v =>
    match fsLookup s.files v.path with
    | none => HttpResult.notFound "File not found"
    | some _ => HttpResult.fileServed v.path

/-- The `/delete/<video_id>` route: 404 when the id is unknown, else unlink
the file and drop the record.  The record's state is never consulted. -/
def delete_video (s : ServerState) (videoId : String) :
    HttpResult × ServerState :=
  match dictLookup s.pendingVideos videoId with
  | none => (HttpResult.notFound "Video not found", s)
  | some v =>
    (HttpResult.statusDeleted,
     { s with pendingVideos := dictErase s.pendingVideos videoId,
              files := unlink s.files v.path })

/-! ## General lemmas about the dict embedding -/

theorem dictLookup_insert_self {α : Type} (d : List (String × α)) (k : String)
    (v : α) : dictLookup (dictInsert d k v) k = some v := by
  induction d with
  | nil => simp [dictInsert, dictLookup]
  | cons hd tl ih =>
    obtain ⟨k1, v1⟩ := hd
    by_cases h : k1 = k
    · simp [dictInsert, dictLookup, h]
    · simp [dictInsert, dictLookup, h, ih]

theorem dictLookup_eq_none_of_not_mem {α : Type} (d : List (String × α))
    (k : String) (h : k ∉ d.map Prod.fst) : dictLookup d k = none := by
  induction d with
  | nil => rfl
  | cons hd tl ih =>
    obtain ⟨k1, v1⟩ := hd
    simp only [List.map_cons, List.mem_cons, not_or] at h
    have hne : ¬ k1 = k := fun hc => h.1 hc.symm
    simp [dictLookup, hne, ih h.2]

theorem mem_of_dictLookup_eq_some {α : Type} (d : List (String × α))
    (k : String) (v : α) (h : dictLookup d k = some v) :
    k ∈ d.map Prod.fst := by
  induction d with
  | nil => simp [dictLookup] at h
  | cons hd tl ih =>
    obtain ⟨k1, v1⟩ := hd
    by_cases hk : k1 = k
    · simp [hk]
    · simp only [dictLookup, if_neg hk] at h
      simp [ih h]

theorem dictLookup_erase_self {α : Type} (d : List (String × α)) (k : String)
    (hnd : (d.map Prod.fst).Nodup) : dictLookup (dictErase d k) k = none := by
  induction d with
  | nil => rfl
  | cons hd tl ih =>
    obtain ⟨k1, v1⟩ := hd
    simp only [List.map_cons, List.nodup_cons] at hnd
    by_cases hk : k1 = k
    · subst hk
      simp only [dictErase, if_pos rfl]
      exact dictLookup_eq_none_of_not_mem tl k1 hnd.1
    · simp [dictErase, dictLookup, hk, ih hnd.2]

theorem dictInsert_map_fst {α : Type} (d : List (String × α)) (k : String)
    (v : α) (h : k ∈ d.map Prod.fst) :
    (dictInsert d k v).map Prod.fst = d.map Prod.fst := by
  induction d with
  | nil => simp at h
  | cons hd tl ih =>
    obtain ⟨k1, v1⟩ := hd
    by_cases hk : k1 = k
    · simp [dictInsert, hk]
    · simp only [List.map_cons, List.mem_cons] at h
      rcases h with h | h
      · exact absurd h.symm hk
      · simp [dictInsert, hk, ih h]

theorem findByFilename_mem (d : List (String × VideoRecord)) (fn vid : String)
    (h : findByFilename d fn = some vid) : vid ∈ d.map Prod.fst := by
  induction d with
  | nil => simp [findByFilename] at h
  | cons hd tl ih =>
    obtain ⟨k1, v1⟩ := hd
    by_cases hf : v1.filename = fn
    · simp only [findByFilename, if_pos hf, Option.some.injEq] at h
      simp [h]
    · simp only [findByFilename, if_neg hf] at h
      simp [ih h]

/-! ## Dispatch lemmas for `upload_chunk` -/

theorem upload_chunk_mismatch (s : ServerState) (freshId now : String)
    (uc : Option Int) (fn : String) (totalSize offset : Nat)
    (chunk : List Nat) (dur ct : String) (mid : Option Int)
    (session : UploadSession) (hfn : fn ≠ "")
    (hs : dictLookup s.sessions fn = some session)
    (hoff : offset ≠ session.offset) :
    upload_chunk s freshId now uc fn totalSize offset chunk dur ct mid
      = (ChunkResponse.mismatch session.offset, s) := by
  simp only [upload_chunk, if_neg hfn, hs, if_pos hoff]

theorem upload_chunk_session_match (s : ServerState) (freshId now : String)
    (uc : Option Int) (fn : String) (totalSize offset : Nat)
    (chunk : List Nat) (dur ct : String) (mid : Option Int)
    (session : UploadSession) (hfn : fn ≠ "")
    (hs : dictLookup s.sessions fn = some session)
    (hoff : offset = session.offset) :
    upload_chunk s freshId now uc fn totalSize offset chunk dur ct mid
      = uploadChunkWrite s freshId now uc fn totalSize offset chunk dur ct mid := by
  simp only [upload_chunk, if_neg hfn, hs, if_neg (not_not_intro hoff)]

theorem upload_chunk_no_session (s : ServerState) (freshId now : String)
    (uc : Option Int) (fn : String) (totalSize offset : Nat)
    (chunk : List Nat) (dur ct : String) (mid : Option Int) (hfn : fn ≠ "")
    (hs : dictLookup s.sessions fn = none) :
    upload_chunk s freshId now uc fn totalSize offset chunk dur ct mid
      = uploadChunkWrite s freshId now uc fn totalSize offset chunk dur ct mid := by
  simp only [upload_chunk, if_neg hfn, hs]

theorem uploadChunkWrite_eq_progress (s : ServerState) (freshId now : String)
    (uc : Option Int) (fn : String) (totalSize offset : Nat)
    (chunk : List Nat) (dur ct : String) (mid : Option Int)
    (h : offset + chunk.length < totalSize) :
    uploadChunkWrite s freshId now uc fn totalSize offset chunk dur ct mid
      = (ChunkResponse.progress (offset + chunk.length),
         { s with sessions := dictInsert s.sessions fn
                    ⟨offset + chunk.length, totalSize⟩,
                  files := if 0 < offset then writeAb s.files fn chunk
                           else writeWb s.files fn chunk }) := by
  simp only [uploadChunkWrite, if_neg (by omega : ¬ totalSize ≤ offset + chunk.length)]

theorem uploadChunkWrite_eq_complete (s : ServerState) (freshId now : String)
    (uc : Option Int) (fn : String) (totalSize offset : Nat)
    (chunk : List Nat) (dur ct : String) (mid : Option Int)
    (h : totalSize ≤ offset + chunk.length) :
    uploadChunkWrite s freshId now uc fn totalSize offset chunk dur ct mid
      = (ChunkResponse.complete ((findByFilename s.pendingVideos fn).getD freshId),
         { pendingVideos := dictInsert s.pendingVideos
             ((findByFilename s.pendingVideos fn).getD freshId)
             { path := fn, filename := fn, totalSizeBytes := totalSize,
               uploadedAt := now, creationTime := ct, duration := dur,
               state := VideoState.awaitingTitle, chatId := uc,
               messageId := mid, title := none, privacy := none },
           sessions := dictErase (dictInsert s.sessions fn
             ⟨offset + chunk.length, totalSize⟩) fn,
           files := if 0 < offset then writeAb s.files fn chunk
                    else writeWb s.files fn chunk }) := by
  simp only [uploadChunkWrite, if_pos h]

/-! ## C5 -/

/-- C5: for every chunk submission whose filename has an active session, the
call succeeds if and only if `offset` equals the session's committed offset;
on success the chunk's bytes are appended to the stored file and the committed
offset advances by `len(bytes)` (on completion the session is removed); on
mismatch the response carries the current committed offset as
`expected_offset`. -/
theorem c5_existing_session_append (s : ServerState) (freshId now : String)
    (uc : Option Int) (fn : String) (totalSize offset : Nat)
    (chunk : List Nat) (dur ct : String) (mid : Option Int)
    (session : UploadSession) (hfn : fn ≠ "")
    (hnd : (s.sessions.map Prod.fst).Nodup)
    (hs : dictLookup s.sessions fn = some session) :
    (offset ≠ session.offset →
      upload_chunk s freshId now uc fn totalSize offset chunk dur ct mid
        = (ChunkResponse.mismatch session.offset, s)) ∧
    (offset = session.offset →
      (0 < offset →
        fsLookup (upload_chunk s freshId now uc fn totalSize offset chunk dur ct
            mid).2.files fn
          = some ((fsLookup s.files fn).getD [] ++ chunk)) ∧
      (offset = 0 →
        fsLookup (upload_chunk s freshId now uc fn totalSize offset chunk dur ct
            mid).2.files fn = some chunk) ∧
      (offset + chunk.length < totalSize →
        (upload_chunk s freshId now uc fn totalSize offset chunk dur ct mid).1
          = ChunkResponse.progress (offset + chunk.length) ∧
        dictLookup (upload_chunk s freshId now uc fn totalSize offset chunk dur
            ct mid).2.sessions fn
          = some ⟨offset + chunk.length, totalSize⟩) ∧
      (totalSize ≤ offset + chunk.length →
        (upload_chunk s freshId now uc fn totalSize offset chunk dur ct mid).1
          = ChunkResponse.complete
              ((findByFilename s.pendingVideos fn).getD freshId) ∧
        dictLookup (upload_chunk s freshId now uc fn totalSize offset chunk dur
            ct mid).2.sessions fn = none)) := by
  constructor
  · intro hoff
    exact upload_chunk_mismatch s freshId now uc fn totalSize offset chunk dur
      ct mid session hfn hs hoff
  · intro hoff
    rw [upload_chunk_session_match s freshId now uc fn totalSize offset chunk
      dur ct mid session hfn hs hoff]
    have hmem := mem_of_dictLookup_eq_some s.sessions fn session hs
    refine ⟨?_, ?_, ?_, ?_⟩
    · intro hpos
      by_cases hc : totalSize ≤ offset + chunk.length
      · rw [uploadChunkWrite_eq_complete s freshId now uc fn totalSize offset
          chunk dur ct mid hc]
        simp [fsLookup, writeAb, if_pos hpos, dictLookup_insert_self]
      · rw [uploadChunkWrite_eq_progress s freshId now uc fn totalSize offset
          chunk dur ct mid (by omega)]
        simp [fsLookup, writeAb, if_pos hpos, dictLookup_insert_self]
    · intro hzero
      subst hzero
      by_cases hc : totalSize ≤ 0 + chunk.length
      · rw [uploadChunkWrite_eq_complete s freshId now uc fn totalSize 0
          chunk dur ct mid hc]
        simp [fsLookup, writeWb, dictLookup_insert_self]
      · rw [uploadChunkWrite_eq_progress s freshId now uc fn totalSize 0
          chunk dur ct mid (by omega)]
        simp [fsLookup, writeWb, dictLookup_insert_self]
    · intro hc
      rw [uploadChunkWrite_eq_progress s freshId now uc fn totalSize offset
        chunk dur ct mid hc]
      simp [dictLookup_insert_self]
    · intro hc
      rw [uploadChunkWrite_eq_complete s freshId now uc fn totalSize offset
        chunk dur ct mid hc]
      have hkeys := dictInsert_map_fst s.sessions fn
        ⟨offset + chunk.length, totalSize⟩ hmem
      have hnd2 : ((dictInsert s.sessions fn
          ⟨offset + chunk.length, totalSize⟩).map Prod.fst).Nodup := by
        rw [hkeys]; exact hnd
      exact ⟨rfl, dictLookup_erase_self _ _ hnd2⟩

/-- Witness for C5: a session at committed offset 2 of 10 rejects a chunk at
offset 3 and reports expected offset 2. -/
theorem c5_witness :
    upload_chunk ⟨[], [("f", ⟨2, 10⟩)], [("f", [5, 5])]⟩ "id" "t" none "f" 10 3
      [7] "" "" none
      = (ChunkResponse.mismatch 2, ⟨[], [("f", ⟨2, 10⟩)], [("f", [5, 5])]⟩) :=
  (c5_existing_session_append ⟨[], [("f", ⟨2, 10⟩)], [("f", [5, 5])]⟩ "id" "t"
    none "f" 10 3 [7] "" "" none ⟨2, 10⟩ (by decide) (by decide) (by decide)).1
    (by decide)

/-! ## C6 -/

/-- C6: a chunk submission rejected for offset mismatch on an existing session
changes nothing: the whole server state (in particular the stored bytes) is
unchanged, the response carries the committed offset as `expected_offset`,
and re-querying the committed offset afterwards returns the same value as
before. -/
theorem c6_rejected_chunk_frame (s : ServerState) (freshId now : String)
    (uc : Option Int) (fn : String) (totalSize offset : Nat)
    (chunk : List Nat) (dur ct : String) (mid : Option Int)
    (session : UploadSession) (hfn : fn ≠ "")
    (hs : dictLookup s.sessions fn = some session)
    (hoff : offset ≠ session.offset) :
    upload_chunk s freshId now uc fn totalSize offset chunk dur ct mid
      = (ChunkResponse.mismatch session.offset, s) ∧
    (upload_chunk s freshId now uc fn totalSize offset chunk dur ct mid).2.files
      = s.files ∧
    upload_status
        (upload_chunk s freshId now uc fn totalSize offset chunk dur ct mid).2 fn
      = upload_status s fn := by
  have h := upload_chunk_mismatch s freshId now uc fn totalSize offset chunk
    dur ct mid session hfn hs hoff
  exact ⟨h, by rw [h], by rw [h]⟩

/-- Witness for C6: a stale retry below the committed offset leaves the state
untouched. -/
theorem c6_witness :
    upload_chunk ⟨[], [("f", ⟨4, 10⟩)], [("f", [5, 5, 5, 5])]⟩ "id" "t" none
      "f" 10 2 [7, 7] "" "" none
      = (ChunkResponse.mismatch 4, ⟨[], [("f", ⟨4, 10⟩)], [("f", [5, 5, 5, 5])]⟩) :=
  (c6_rejected_chunk_frame ⟨[], [("f", ⟨4, 10⟩)], [("f", [5, 5, 5, 5])]⟩ "id"
    "t" none "f" 10 2 [7, 7] "" "" none ⟨4, 10⟩ (by decide) (by decide)
    (by decide)).1

/-! ## C7 -/

def c7S0 : ServerState := ⟨[], [], []⟩

def c7Step1 : ChunkResponse × ServerState :=
  upload_chunk c7S0 "vidA" "t1" (some 99) "clip.mov" 300 0
    (List.replicate 100 1) "" "" none

def c7Step2 : ChunkResponse × ServerState :=
  upload_chunk c7Step1.2 "vidB" "t2" (some 99) "clip.mov" 300 100
    (List.replicate 100 2) "" "" none

def c7Step3 : ChunkResponse × ServerState :=
  upload_chunk c7Step2.2 "vidC" "t3" (some 99) "clip.mov" 300 50
    (List.replicate 50 3) "" "" none

def c7Step4 : ChunkResponse × ServerState :=
  upload_chunk c7Step3.2 "vidD" "t4" (some 99) "clip.mov" 300 200
    (List.replicate 100 4) "" "" none

/-- C7: the scenario for `"clip.mov"` with `total_size = 300`: offset 0 len
100 → partial 100; offset 100 len 100 → partial 200; stale retry offset 50
len 50 → 409 with expected offset 200 and no state change; offset 200 len 100
→ complete with a video id, the session removed, and a record created in
state `awaiting_title` whose file is the concatenation of the committed
chunks. -/
theorem c7_scenario :
    c7Step1.1 = ChunkResponse.progress 100 ∧
    c7Step2.1 = ChunkResponse.progress 200 ∧
    c7Step3.1 = ChunkResponse.mismatch 200 ∧
    c7Step3.2 = c7Step2.2 ∧
    c7Step4.1 = ChunkResponse.complete "vidD" ∧
    dictLookup c7Step4.2.sessions "clip.mov" = none ∧
    dictLookup c7Step4.2.pendingVideos "vidD"
      = some { path := "clip.mov", filename := "clip.mov",
               totalSizeBytes := 300, uploadedAt := "t4", creationTime := "",
               duration := "", state := VideoState.awaitingTitle,
               chatId := some 99, messageId := none, title := none,
               privacy := none } ∧
    fsLookup c7Step4.2.files "clip.mov"
      = some (List.replicate 100 1 ++ List.replicate 100 2
              ++ List.replicate 100 4) := by
  decide

/-! ## C1 -/

def c1S : ServerState := ⟨[], [], [("a.mov", [9, 9])]⟩

/-- C1 counterexample: with no active session for `"a.mov"` and a stale file
`[9, 9]` on disk, a submission at offset 5 is NOT rejected with
`OffsetMismatch` (expected 0): it is accepted with status partial, the three
bytes are appended to the stale file, and a session is started at offset 8. -/
theorem c1_counterexample :
    upload_chunk c1S "id1" "t0" none "a.mov" 100 5 [1, 2, 3] "" "" none
      = (ChunkResponse.progress 8,
         ⟨[], [("a.mov", ⟨8, 100⟩)], [("a.mov", [9, 9, 1, 2, 3])]⟩) := by
  decide

/-- C1 (amended): for every chunk submission whose filename has no active
session, the request is accepted at ANY offset — offset 0 truncates any stale
file of that name, while offset > 0 appends to whatever file of that name
exists; in both cases a session is started at `offset + len(bytes)` (or the
transfer completes) and no `OffsetMismatch` is ever returned. -/
theorem c1_no_session_always_accepts (s : ServerState) (freshId now : String)
    (uc : Option Int) (fn : String) (totalSize offset : Nat)
    (chunk : List Nat) (dur ct : String) (mid : Option Int)
    (hfn : fn ≠ "") (hs : dictLookup s.sessions fn = none) :
    (∀ e, (upload_chunk s freshId now uc fn totalSize offset chunk dur ct
        mid).1 ≠ ChunkResponse.mismatch e) ∧
    (offset = 0 →
      fsLookup (upload_chunk s freshId now uc fn totalSize offset chunk dur ct
        mid).2.files fn = some chunk) ∧
    (0 < offset →
      fsLookup (upload_chunk s freshId now uc fn totalSize offset chunk dur ct
        mid).2.files fn = some ((fsLookup s.files fn).getD [] ++ chunk)) ∧
    (offset + chunk.length < totalSize →
      (upload_chunk s freshId now uc fn totalSize offset chunk dur ct mid).1
        = ChunkResponse.progress (offset + chunk.length) ∧
      dictLookup (upload_chunk s freshId now uc fn totalSize offset chunk dur
        ct mid).2.sessions fn = some ⟨offset + chunk.length, totalSize⟩) ∧
    (totalSize ≤ offset + chunk.length →
      (upload_chunk s freshId now uc fn totalSize offset chunk dur ct mid).1
        = ChunkResponse.complete
            ((findByFilename s.pendingVideos fn).getD freshId)) := by
  rw [upload_chunk_no_session s freshId now uc fn totalSize offset chunk dur
    ct mid hfn hs]
  refine ⟨?_, ?_, ?_, ?_, ?_⟩
  · intro e
    by_cases hc : totalSize ≤ offset + chunk.length
    · rw [uploadChunkWrite_eq_complete s freshId now uc fn totalSize offset
        chunk dur ct mid hc]
      simp
    · rw [uploadChunkWrite_eq_progress s freshId now uc fn totalSize offset
        chunk dur ct mid (by omega)]
      simp
  · intro hzero
    subst hzero
    by_cases hc : totalSize ≤ 0 + chunk.length
    · rw [uploadChunkWrite_eq_complete s freshId now uc fn totalSize 0 chunk
        dur ct mid hc]
      simp [fsLookup, writeWb, dictLookup_insert_self]
    · rw [uploadChunkWrite_eq_progress s freshId now uc fn totalSize 0 chunk
        dur ct mid (by omega)]
      simp [fsLookup, writeWb, dictLookup_insert_self]
  · intro hpos
    by_cases hc : totalSize ≤ offset + chunk.length
    · rw [uploadChunkWrite_eq_complete s freshId now uc fn totalSize offset
        chunk dur ct mid hc]
      simp [fsLookup, writeAb, if_pos hpos, dictLookup_insert_self]
    · rw [uploadChunkWrite_eq_progress s freshId now uc fn totalSize offset
        chunk dur ct mid (by omega)]
      simp [fsLookup, writeAb, if_pos hpos, dictLookup_insert_self]
  · intro hc
    rw [uploadChunkWrite_eq_progress s freshId now uc fn totalSize offset
      chunk dur ct mid hc]
    simp [dictLookup_insert_self]
  · intro hc
    rw [uploadChunkWrite_eq_complete s freshId now uc fn totalSize offset
      chunk dur ct mid hc]

/-- Witness for the amended C1: the no-session offset-5 submission appends to
the stale bytes. -/
theorem c1_witness :
    fsLookup (upload_chunk c1S "id1" "t0" none "a.mov" 100 5 [1, 2, 3] "" ""
      none).2.files "a.mov" = some ([9, 9] ++ [1, 2, 3]) :=
  (c1_no_session_always_accepts c1S "id1" "t0" none "a.mov" 100 5 [1, 2, 3]
    "" "" none (by decide) (by decide)).2.2.1 (by decide)

/-! ## C2 -/

def c2Rec : VideoRecord :=
  ⟨"b.mov", "b.mov", 3, "t", "", "", VideoState.readyToUpload, some 1, some 2,
   some "T", some "public"⟩

def c2S : ServerState := ⟨[("v1", c2Rec)], [], [("b.mov", [1])]⟩

def c2O1 : CallbackOutcome := handle_callback c2S 10 20 "action" "yes" "v1"

def c2T1 : Option ServerState := upload_to_youtube_begin c2O1.state "v1"

def c2O2 : CallbackOutcome :=
  handle_callback (c2T1.getD c2O1.state) 10 20 "action" "yes" "v1"

/-- C2 counterexample: two identical `ConfirmPublish` (`action:yes`) callbacks
for `"v1"` each start an `upload_to_youtube` thread — the second delivery,
arriving after the first worker has already marked the record as uploading,
starts a second invocation and that invocation also passes the worker's entry
guard.  So duplicate delivery yields two PublishWorker invocations, not at
most one, and no handler checks the record's state. -/
theorem c2_counterexample :
    c2O1.startedUploadFor = some "v1" ∧
    c2T1.isSome = true ∧
    c2O2.startedUploadFor = some "v1" ∧
    (upload_to_youtube_begin c2O2.state "v1").isSome = true := by
  decide

/-- C2 (amended): handling of `ConfirmPublish` is NOT idempotent under
duplicate delivery: the handler checks only that `video_id` is still pending,
never the record's state, so every duplicate delivery of `action:yes` starts
another `upload_to_youtube` invocation as long as the record exists — in
particular a second identical delivery starts a second invocation, and the
worker's own entry guard also lets it proceed. -/
theorem c2_duplicate_confirm_starts_again (s : ServerState) (cid mid : Int)
    (vid : String) (v : VideoRecord)
    (h : dictLookup s.pendingVideos vid = some v) :
    (handle_callback s cid mid "action" "yes" vid).startedUploadFor
      = some vid ∧
    dictLookup (handle_callback s cid mid "action" "yes"
        vid).state.pendingVideos vid
      = some { v with chatId := some cid, messageId := some mid } ∧
    (handle_callback (handle_callback s cid mid "action" "yes" vid).state cid
        mid "action" "yes" vid).startedUploadFor = some vid ∧
    (upload_to_youtube_begin (handle_callback s cid mid "action" "yes"
        vid).state vid).isSome = true := by
  have hcal : handle_callback s cid mid "action" "yes" vid
      = ⟨{ s with pendingVideos := (dictInsert s.pendingVideos vid
             { v with chatId := some cid, messageId := some mid }) },
         some vid, HttpResult.okTrue⟩ := by
    simp [handle_callback, h]
  have h2 : dictLookup (handle_callback s cid mid "action" "yes"
      vid).state.pendingVideos vid
      = some { v with chatId := some cid, messageId := some mid } := by
    rw [hcal]
    exact dictLookup_insert_self _ _ _
  refine ⟨by rw [hcal], h2, ?_, ?_⟩
  · rw [hcal]
    simp [handle_callback, dictLookup_insert_self]
  · rw [hcal]
    simp [upload_to_youtube_begin, dictLookup_insert_self]

/-- Witness for the amended C2: the duplicate confirm on the concrete state
starts an upload again. -/
theorem c2_witness :
    (handle_callback c2S 10 20 "action" "yes" "v1").startedUploadFor
      = some "v1" :=
  (c2_duplicate_confirm_starts_again c2S 10 20 "v1" c2Rec (by decide)).1

/-! ## C3 -/

def c3Rec : VideoRecord :=
  ⟨"c.mov", "c.mov", 3, "t", "", "", VideoState.awaitingTitle, some 1, some 2,
   none, none⟩

def c3S : ServerState := ⟨[("v1", c3Rec)], [], []⟩

/-- C3 counterexample: a `SetPrivacy` (`privacy:…`) event for a record in
state `awaiting_title` — not `awaiting_privacy` — is NOT a no-op: the handler
sets the privacy and moves the record to `ready_to_upload` anyway. -/
theorem c3_counterexample :
    (handle_callback c3S 10 20 "privacy" "unlisted" "v1").state.pendingVideos
      = [("v1", ⟨"c.mov", "c.mov", 3, "t", "", "", VideoState.readyToUpload,
           some 1, some 2, none, some "unlisted"⟩)] ∧
    (handle_callback c3S 10 20 "privacy" "unlisted" "v1").state ≠ c3S := by
  decide

/-- C3 (amended): a `SetPrivacy` event naming an existing `video_id` is
applied regardless of the record's current state — privacy is stored and the
record moves to `ready_to_upload` from ANY state; only a missing `video_id`
makes the event a no-op. -/
theorem c3_privacy_applies_in_any_state (s : ServerState) (cid mid : Int)
    (vid value : String) :
    (∀ v, dictLookup s.pendingVideos vid = some v →
      handle_callback s cid mid "privacy" value vid
        = ⟨{ s with pendingVideos := (dictInsert s.pendingVideos vid
               { v with privacy := some value,
                        state := VideoState.readyToUpload }) },
           none, HttpResult.okTrue⟩) ∧
    (dictLookup s.pendingVideos vid = none →
      handle_callback s cid mid "privacy" value vid
        = ⟨s, none, HttpResult.okTrue⟩) := by
  constructor
  · intro v h
    simp [handle_callback, h]
  · intro h
    simp [handle_callback, h]

/-- Witness for the amended C3: the privacy event applied to a record in
`awaiting_title` still transitions it. -/
theorem c3_witness :
    handle_callback c3S 10 20 "privacy" "unlisted" "v1"
      = ⟨⟨[("v1", ⟨"c.mov", "c.mov", 3, "t", "", "",
            VideoState.readyToUpload, some 1, some 2, none,
            some "unlisted"⟩)], [], []⟩,
         none, HttpResult.okTrue⟩ :=
  (c3_privacy_applies_in_any_state c3S 10 20 "v1" "unlisted").1 c3Rec
    (by decide)

/-! ## C4 -/

def c4Rec : VideoRecord :=
  ⟨"d.mov", "d.mov", 3, "t", "", "", VideoState.uploading, some 1, some 2,
   some "T", some "public"⟩

def c4S : ServerState := ⟨[("v1", c4Rec)], [], [("d.mov", [1])]⟩

/-- C4 counterexample: a record whose state is `uploading` (the spec's
PUBLISHING) IS removed: single delete succeeds on it and unlinks its file,
and bulk delete removes it too — the publish in progress does not block
deletion. -/
theorem c4_counterexample :
    (delete_video c4S "v1").1 = HttpResult.statusDeleted ∧
    (delete_video c4S "v1").2.pendingVideos = [] ∧
    (delete_video c4S "v1").2.files = [] ∧
    (cleanup_all c4S).2.pendingVideos = [] := by
  decide

/-- C4 (amended): deletion never consults the record's state: single delete is
accepted in EVERY state, including `uploading` (PUBLISHING), removing the
record and unlinking its file, and bulk delete removes ALL records, the
`uploading` ones included. -/
theorem c4_delete_ignores_state (s : ServerState) (vid : String)
    (v : VideoRecord) (h : dictLookup s.pendingVideos vid = some v) :
    delete_video s vid
      = (HttpResult.statusDeleted,
         { s with pendingVideos := dictErase s.pendingVideos vid,
                  files := unlink s.files v.path }) ∧
    (cleanup_all s).2.pendingVideos = [] := by
  constructor
  · simp [delete_video, h]
  · rfl

/-- Witness for the amended C4: deleting the uploading record removes it. -/
theorem c4_witness :
    delete_video c4S "v1" = (HttpResult.statusDeleted, ⟨[], [], []⟩) :=
  (c4_delete_ignores_state c4S "v1" c4Rec (by decide)).1

/-! ## C8 -/

def c8Rec : VideoRecord :=
  ⟨"a.mov", "a.mov", 3, "t", "", "", VideoState.awaitingPrivacy, some 1,
   some 2, some "My Title", some "public"⟩

def c8S : ServerState := ⟨[("old1", c8Rec)], [], [("a.mov", [9])]⟩

def c8R : ChunkResponse × ServerState :=
  upload_chunk c8S "newid" "t9" (some 99) "a.mov" 3 0 [1, 2, 3] "" "" none

/-- C8 counterexample: a transfer completing for `"a.mov"`, whose live record
`"old1"` sits in `awaiting_privacy` with a title already set, keeps the
record's id but does NOT replace only the storage fields: the whole record is
rebuilt, so the title is dropped (`some "My Title"` → `none`), the privacy is
dropped, and the state is reset to `awaiting_title`. -/
theorem c8_counterexample :
    c8R.1 = ChunkResponse.complete "old1" ∧
    dictLookup c8R.2.pendingVideos "old1"
      = some ⟨"a.mov", "a.mov", 3, "t9", "", "", VideoState.awaitingTitle,
          some 99, none, none, none⟩ ∧
    dictLookup c8R.2.pendingVideos "old1" ≠ some c8Rec ∧
    c8R.2.pendingVideos.length = 1 := by
  decide

/-- C8 (amended): when a transfer completes for a filename that already has a
live record, that record's identity (`video_id`) is preserved and no second
record is created (the key set of `pending_videos` is unchanged), but the
record is replaced wholesale — all fields are rebuilt, resetting the state to
`awaiting_title` and dropping any title and privacy already set — rather than
only its storage fields being replaced. -/
theorem c8_complete_reuses_existing_id (s : ServerState)
    (freshId now : String) (uc : Option Int) (fn : String)
    (totalSize offset : Nat) (chunk : List Nat) (dur ct : String)
    (mid : Option Int) (session : UploadSession) (vid : String)
    (hfn : fn ≠ "") (hs : dictLookup s.sessions fn = some session)
    (hoff : offset = session.offset)
    (hdone : totalSize ≤ offset + chunk.length)
    (hfind : findByFilename s.pendingVideos fn = some vid) :
    (upload_chunk s freshId now uc fn totalSize offset chunk dur ct mid).1
      = ChunkResponse.complete vid ∧
    (upload_chunk s freshId now uc fn totalSize offset chunk dur ct
        mid).2.pendingVideos
      = dictInsert s.pendingVideos vid
          { path := fn, filename := fn, totalSizeBytes := totalSize,
            uploadedAt := now, creationTime := ct, duration := dur,
            state := VideoState.awaitingTitle, chatId := uc,
            messageId := mid, title := none, privacy := none } ∧
    (upload_chunk s freshId now uc fn totalSize offset chunk dur ct
        mid).2.pendingVideos.map Prod.fst
      = s.pendingVideos.map Prod.fst ∧
    dictLookup (upload_chunk s freshId now uc fn totalSize offset chunk dur
        ct mid).2.pendingVideos vid
      = some { path := fn, filename := fn, totalSizeBytes := totalSize,
               uploadedAt := now, creationTime := ct, duration := dur,
               state := VideoState.awaitingTitle, chatId := uc,
               messageId := mid, title := none, privacy := none } := by
  rw [upload_chunk_session_match s freshId now uc fn totalSize offset chunk
      dur ct mid session hfn hs hoff,
    uploadChunkWrite_eq_complete s freshId now uc fn totalSize offset chunk
      dur ct mid hdone]
  rw [hfind]
  refine ⟨rfl, rfl, ?_, ?_⟩
  · exact dictInsert_map_fst _ _ _ (findByFilename_mem _ _ vid hfind)
  · exact dictLookup_insert_self _ _ _

def c8W : ServerState := ⟨[("old1", c8Rec)], [("a.mov", ⟨0, 3⟩)], [("a.mov", [9])]⟩

/-- Witness for the amended C8: completing the transfer over an existing
session reuses the id `"old1"`. -/
theorem c8_witness :
    (upload_chunk c8W "newid" "t9" (some 99) "a.mov" 3 0 [1, 2, 3] "" ""
      none).1 = ChunkResponse.complete "old1" :=
  (c8_complete_reuses_existing_id c8W "newid" "t9" (some 99) "a.mov" 3 0
    [1, 2, 3] "" "" none ⟨0, 3⟩ "old1" (by decide) (by decide) (by decide)
    (by decide) (by decide)).1

/-! ## C9 -/

/-- C9 (amended): deleting a video removes its record and unlinks its backing
file; afterwards a repeated delete and a preview referencing that `video_id`
report 404 "not found", while webhook transition events (privacy, confirm,
delete buttons) referencing it are silently dropped — no record mutation, no
upload started, and the generic `{"ok": true}` acknowledgement rather than a
not-found report; no operation crashes (all are total). -/
theorem c9_after_delete (s : ServerState) (vid : String) (v : VideoRecord)
    (hnd : (s.pendingVideos.map Prod.fst).Nodup)
    (h : dictLookup s.pendingVideos vid = some v) :
    dictLookup (delete_video s vid).2.pendingVideos vid = none ∧
    (delete_video s vid).2.files = unlink s.files v.path ∧
    delete_video (delete_video s vid).2 vid
      = (HttpResult.notFound "Video not found", (delete_video s vid).2) ∧
    preview_video (delete_video s vid).2 vid
      = HttpResult.notFound "Video not found" ∧
    (∀ a val : String, ∀ cid mid : Int,
      a = "privacy" ∨ a = "action" ∨ a = "confirm" →
      handle_callback (delete_video s vid).2 cid mid a val vid
        = ⟨(delete_video s vid).2, none, HttpResult.okTrue⟩) := by
  have hdel : (delete_video s vid).2
      = { s with pendingVideos := dictErase s.pendingVideos vid,
                 files := unlink s.files v.path } := by
    simp [delete_video, h]
  have hgone : dictLookup (delete_video s vid).2.pendingVideos vid = none := by
    rw [hdel]
    exact dictLookup_erase_self _ _ hnd
  have hnf : ∀ s1 : ServerState, dictLookup s1.pendingVideos vid = none →
      delete_video s1 vid = (HttpResult.notFound "Video not found", s1) := by
    intro s1 h1
    simp [delete_video, h1]
  refine ⟨hgone, by rw [hdel], hnf _ hgone, ?_, ?_⟩
  · simp [preview_video, hgone]
  · intro a val cid mid ha
    rcases ha with rfl | rfl | rfl <;> simp [handle_callback, hgone]

def c9Rec : VideoRecord :=
  ⟨"e.mov", "e.mov", 3, "t", "", "", VideoState.readyToUpload, some 1, some 2,
   some "T", some "public"⟩

def c9S : ServerState := ⟨[("v1", c9Rec)], [], [("e.mov", [1])]⟩

def c9Del : ServerState := (delete_video c9S "v1").2

/-- C9 counterexample: after `"v1"` is deleted, a transition event (privacy
selection) referencing it does NOT report a not-found result — the webhook
acknowledges with the generic ok and silently drops the event. -/
theorem c9_counterexample :
    (handle_callback c9Del 1 2 "privacy" "public" "v1").response
      = HttpResult.okTrue ∧
    (handle_callback c9Del 1 2 "privacy" "public" "v1").response
      ≠ HttpResult.notFound "Video not found" ∧
    (handle_callback c9Del 1 2 "privacy" "public" "v1").state = c9Del := by
  decide

/-- Witness for the amended C9: the concrete deleted video yields 404 on
preview. -/
theorem c9_witness :
    preview_video (delete_video c9S "v1").2 "v1"
      = HttpResult.notFound "Video not found" :=
  (c9_after_delete c9S "v1" c9Rec (by decide) (by decide)).2.2.2.1

/-! ## C10 -/

theorem setTitleFirst_of_find (d : List (String × VideoRecord)) (mid : Int)
    (t : String) (vid : String) (v : VideoRecord)
    (h : findTitleTarget d mid = some (vid, v)) :
    ∃ pre post, d = pre ++ (vid, v) :: post ∧
      setTitleFirst d mid t
        = pre ++ (vid, { v with title := some t, state := VideoState.awaitingPrivacy }) :: post := by
  induction d with
  | nil => simp [findTitleTarget] at h
  | cons hd tl ih =>
    obtain ⟨k1, w⟩ := hd
    by_cases hc : w.messageId = some mid ∧ w.state = VideoState.awaitingTitle
    · simp only [findTitleTarget, if_pos hc, Option.some.injEq,
        Prod.mk.injEq] at h
      obtain ⟨h1, h2⟩ := h
      subst h1
      subst h2
      exact ⟨[], tl, rfl, by simp [setTitleFirst, hc]⟩
    · simp only [findTitleTarget, if_neg hc] at h
      obtain ⟨pre, post, hd1, hd2⟩ := ih h
      refine ⟨(k1, w) :: pre, post, by simp [hd1], ?_⟩
      simp only [setTitleFirst, if_neg hc, hd2, List.cons_append]

theorem pySlice_length_le (t : String) (n : Nat) : (pySlice t n).length ≤ n := by
  simp only [pySlice, String.length]
  simp [List.length_take]

theorem pySlice_idem (t : String) (n : Nat) :
    pySlice (pySlice t n) n = pySlice t n := by
  simp [pySlice, List.take_take]

/-- C10: the bounded title length is exactly 100 characters.  For a
title-setting reply hitting record `(vid, v)`, the stored title is exactly
the first 100 characters of the whitespace-stripped reply text (and is at
most 100 characters long); at publish time the title used is the stored
title again truncated to 100 characters (a no-op on an already-stored
title), and when no title was set it is the 100-character truncation of the
file's stem. -/
theorem c10_title_truncated (s : ServerState) (text : String)
    (replyMsgId : Int) (vid : String) (v : VideoRecord)
    (h : findTitleTarget s.pendingVideos replyMsgId = some (vid, v)) :
    (∃ pre post,
      s.pendingVideos = pre ++ (vid, v) :: post ∧
      (handle_title_reply s text replyMsgId).pendingVideos
        = pre ++ (vid, { v with title := some (pySlice (pyStrip text) 100), state := VideoState.awaitingPrivacy }) :: post) ∧
    (pySlice (pyStrip text) 100).length ≤ 100 ∧
    (∀ p, publish_title { v with title := some (pySlice (pyStrip text) 100), state := VideoState.awaitingPrivacy } p
        = pySlice (pyStrip text) 100) ∧
    (∀ w : VideoRecord, ∀ p, w.title = none →
      publish_title w p = pySlice (pathStem p) 100) := by
  refine ⟨?_, pySlice_length_le _ _, ?_, ?_⟩
  · exact setTitleFirst_of_find s.pendingVideos replyMsgId
      (pySlice (pyStrip text) 100) vid v h
  · intro p
    simp [publish_title, pySlice_idem]
  · intro w p hw
    simp [publish_title, hw]

def c10Rec : VideoRecord :=
  ⟨"clip.mov", "clip.mov", 3, "t", "", "", VideoState.awaitingTitle, some 1,
   some 5, none, none⟩

def c10S : ServerState := ⟨[("v1", c10Rec)], [], []⟩

/-- Witness for C10: on the concrete reply the stored/published title is at
most 100 characters. -/
theorem c10_witness :
    (pySlice (pyStrip "  My Game  ") 100).length ≤ 100 :=
  (c10_title_truncated c10S "  My Game  " 5 "v1" c10Rec (by decide)).2.1

end YTUploader
